import Mathlib

/-
Verification of the traffic signal optimizer (src/traffic_optimizer.py).

The Python class `TrafficSignalOptimizer` is embedded shallowly:

* the object state set up by `__init__` becomes the structure
  `TrafficSignalOptimizer` (association list of vehicle-type weights and
  the five numeric constants), with `TrafficSignalOptimizer.new` holding
  the exact values from the constructor;
* Python numbers are modelled exactly: `int` values as `ℤ`, float
  arithmetic as exact rational arithmetic on `ℚ`;
* `int(x)` (truncation toward zero) is `pyInt`, `round(x)`
  (round-half-to-even) is `pyRound`, and `round(x, 3)` is `pyRound3`;
* Python dicts that the code only iterates or looks up become
  association lists `List (String × _)`, preserving iteration order;
* `calculate_traffic_density` and `optimize_signals` are translated
  line by line; the body of `optimize_signals` is split into named
  helper definitions (`laneY`, `saturationSumOf`, `totalLostTime`,
  `optimalCycle`, `cycleTimeOf`, `rawGreen`, `laneTiming`) so the
  theorems can speak about the intermediate quantities of the source.
-/

namespace TrafficOpt

/-- Truncation toward zero of an exact rational, the behaviour of
Python's `int(x)` applied to a float. -/
def pyInt (q : ℚ) : ℤ :=
  if q < 0 then -(⌊-q⌋) else ⌊q⌋

/-- Round-half-to-even of an exact rational, the behaviour of Python's
built-in `round(x)` applied to a float. -/
def pyRound (q : ℚ) : ℤ :=
  let f := ⌊q⌋
  let frac := q - (f : ℚ)
  if frac < 1/2 then f
  else if 1/2 < frac then f + 1
  else if f % 2 = 0 then f else f + 1

/-- Rounding to three decimal places, the behaviour of Python's
`round(x, 3)`. -/
def pyRound3 (q : ℚ) : ℚ :=
  (pyRound (q * 1000) : ℚ) / 1000

/-- The object state of the Python class `TrafficSignalOptimizer`: the
per-category PCU weights and the Webster-method constants fixed by
`__init__`. -/
structure TrafficSignalOptimizer where
  weights : List (String × ℚ)
  saturation_flow : ℚ
  lost_time_per_phase : ℤ
  min_green_time : ℤ
  min_cycle_time : ℤ
  max_cycle_time : ℤ
deriving DecidableEq

/-- The object produced by `TrafficSignalOptimizer.__init__` in the
source: weights car 1.0, motorcycle 0.5, bus 3.0, truck 2.5;
saturation flow 30.0; lost time per phase 4; minimum green 10;
minimum cycle 60; maximum cycle 150. -/
def TrafficSignalOptimizer.new : TrafficSignalOptimizer where
  weights := [("car", 1), ("motorcycle", 1/2), ("bus", 3), ("truck", 5/2)]
  saturation_flow := 30
  lost_time_per_phase := 4
  min_green_time := 10
  min_cycle_time := 60
  max_cycle_time := 150

namespace TrafficSignalOptimizer

/-- Weight lookup `self.weights.get(vehicle_type, 1.0)`: the configured
weight when the category is in the table, default 1.0 otherwise. -/
def weightOf (self : TrafficSignalOptimizer) (vehicle_type : String) : ℚ :=
  match self.weights.lookup vehicle_type with
  | some w => w
  | none => 1

/-- Method `calculate_traffic_density`: starts from `density = 0` and
adds `count * weight` for every `(vehicle_type, count)` item of the
counts mapping. -/
def calculate_traffic_density (self : TrafficSignalOptimizer)
    (counts : List (String × ℤ)) : ℚ :=
  counts.foldl (fun density p => density + (p.2 : ℚ) * self.weightOf p.1) 0

/-- The per-lane flow ratio `y = pcu_count / self.saturation_flow`
computed in the first loop of `optimize_signals`. -/
def laneY (self : TrafficSignalOptimizer) (counts : List (String × ℤ)) : ℚ :=
  self.calculate_traffic_density counts / self.saturation_flow

/-- The accumulator `Y += y` over all lanes of the request: the sum of
the per-lane flow ratios. -/
def saturationSumOf (self : TrafficSignalOptimizer)
    (lane_counts : List (String × List (String × ℤ))) : ℚ :=
  (lane_counts.map fun p => self.laneY p.2).sum

/-- `L = self.lost_time_per_phase * 4` from `optimize_signals`: the
phase count is the literal 4 in the source, independent of the number
of lanes in the request. -/
def totalLostTime (self : TrafficSignalOptimizer) : ℤ :=
  self.lost_time_per_phase * 4

/-- The optimal cycle computation of `optimize_signals`: clamp
`Y_clamped = min(Y, 0.95)`, then Webster's formula
`(1.5 * L + 5) / (1 - Y_clamped)` when `Y_clamped > 0`, else
`self.min_cycle_time`. -/
def optimalCycle (self : TrafficSignalOptimizer) (Y : ℚ) : ℚ :=
  let Y_clamped := min Y (19/20)
  if 0 < Y_clamped then
    ((3/2) * (self.totalLostTime : ℚ) + 5) / (1 - Y_clamped)
  else
    (self.min_cycle_time : ℚ)

/-- `cycle_time = max(self.min_cycle_time, min(self.max_cycle_time,
int(optimal_cycle)))`. -/
def cycleTimeOf (self : TrafficSignalOptimizer) (Y : ℚ) : ℤ :=
  max self.min_cycle_time (min self.max_cycle_time (pyInt (self.optimalCycle Y)))

/-- The raw green time of one lane: `(y / Y) * total_effective_green`
when `Y > 0`, else `total_effective_green / 4` (the divisor is the
literal 4 in the source, independent of the number of lanes). -/
def rawGreen (self : TrafficSignalOptimizer) (Y : ℚ) (eff : ℤ) (y : ℚ) : ℚ :=
  if 0 < Y then (y / Y) * (eff : ℚ) else (eff : ℚ) / 4

/-- The per-lane entry of `results['lanes']`. -/
structure LaneTiming where
  green_time : ℤ
  red_time : ℤ
  yellow_time : ℤ
  density_score : ℚ
  flow_ratio : ℚ
deriving DecidableEq

/-- The dictionary returned by `optimize_signals`. -/
structure OptimizationResult where
  cycle_time : ℤ
  lanes : List (String × LaneTiming)
  saturation_degree : ℚ
  actual_cycle_time : ℤ
deriving DecidableEq

/-- The body of the second loop of `optimize_signals` for one lane:
minimum-green enforcement `green_time = max(self.min_green_time,
int(round(raw_green)))`, `red_time = cycle_time - green_time -
self.lost_time_per_phase`, constant yellow, the stored density and the
flow ratio rounded to 3 decimals. -/
def laneTiming (self : TrafficSignalOptimizer) (Y : ℚ) (cycle : ℤ)
    (counts : List (String × ℤ)) : LaneTiming :=
  let y := self.laneY counts
  let green := max self.min_green_time
    (pyRound (self.rawGreen Y (cycle - self.totalLostTime) y))
  { green_time := green,
    red_time := cycle - green - self.lost_time_per_phase,
    yellow_time := self.lost_time_per_phase,
    density_score := self.calculate_traffic_density counts,
    flow_ratio := pyRound3 y }

/-- Method `optimize_signals`: per-lane densities and flow ratios, the
saturation sum `Y`, the clamped Webster cycle, per-lane green/red/yellow
allocation, and the reconciled `actual_cycle_time` equal to the sum of
the enforced green times plus `L`. -/
def optimize_signals (self : TrafficSignalOptimizer)
    (lane_counts : List (String × List (String × ℤ))) : OptimizationResult :=
  let Y := self.saturationSumOf lane_counts
  let cycle := self.cycleTimeOf Y
  let lanes := lane_counts.map fun p => (p.1, self.laneTiming Y cycle p.2)
  { cycle_time := cycle,
    lanes := lanes,
    saturation_degree := Y,
    actual_cycle_time := (lanes.map fun p => p.2.green_time).sum + self.totalLostTime }

/-- A call of the method `optimize_signals` on the object `self`,
returning the result together with the object state after the call:
the method body never assigns to `self`, so the state it leaves behind
is the state it received. -/
def optimize_signals_call (self : TrafficSignalOptimizer)
    (lane_counts : List (String × List (String × ℤ))) :
    OptimizationResult × TrafficSignalOptimizer :=
  (self.optimize_signals lane_counts, self)

/-- A one-lane request whose only count is zero. -/
def reqOneZero : List (String × List (String × ℤ)) := [("N", [("car", 0)])]

/-- A one-lane request with a single zero count, lane identifier A. -/
def reqOneZeroA : List (String × List (String × ℤ)) := [("A", [("car", 0)])]

/-- A two-lane request whose counts are all zero. -/
def reqTwoZero : List (String × List (String × ℤ)) :=
  [("A", [("car", 0)]), ("B", [("car", 0)])]

/-- A four-lane request with very uneven demand: 2, 2, 2 and 20 cars. -/
def reqUneven : List (String × List (String × ℤ)) :=
  [("N", [("car", 2)]), ("S", [("car", 2)]), ("E", [("car", 2)]), ("W", [("car", 20)])]

/-- A one-lane request with a negative vehicle count. -/
def reqNegN : List (String × List (String × ℤ)) := [("N", [("car", -5)])]

/-- A two-lane request mixing a saturated lane with a negative count. -/
def reqMixedNeg : List (String × List (String × ℤ)) :=
  [("A", [("car", 30)]), ("B", [("car", -15)])]

/-- A one-lane request with 30 cars, putting the flow ratio at exactly 1. -/
def reqSaturated : List (String × List (String × ℤ)) := [("N", [("car", 30)])]

theorem density_eq_sum (self : TrafficSignalOptimizer)
    (counts : List (String × ℤ)) :
    self.calculate_traffic_density counts
      = (counts.map fun p => (p.2 : ℚ) * self.weightOf p.1).sum := by
  suffices h : ∀ (l : List (String × ℤ)) (a : ℚ),
      l.foldl (fun density p => density + (p.2 : ℚ) * self.weightOf p.1) a
        = a + (l.map fun p => (p.2 : ℚ) * self.weightOf p.1).sum by
    simpa using h counts 0
  intro l
  induction l with
  | nil => intro a; simp
  | cons q t ih => intro a; simp [ih, add_assoc]

theorem density_of_zero_counts (self : TrafficSignalOptimizer)
    (counts : List (String × ℤ)) (h : ∀ c ∈ counts, c.2 = 0) :
    self.calculate_traffic_density counts = 0 := by
  rw [density_eq_sum]
  refine List.sum_eq_zero ?_
  intro x hx
  simp only [List.mem_map] at hx
  obtain ⟨c, hc, rfl⟩ := hx
  rw [h c hc]
  simp

theorem saturation_sum_of_zero (self : TrafficSignalOptimizer)
    (lane_counts : List (String × List (String × ℤ)))
    (h : ∀ p ∈ lane_counts, ∀ c ∈ p.2, c.2 = 0) :
    self.saturationSumOf lane_counts = 0 := by
  simp only [saturationSumOf]
  refine List.sum_eq_zero ?_
  intro x hx
  simp only [List.mem_map] at hx
  obtain ⟨p, hp, rfl⟩ := hx
  rw [laneY, density_of_zero_counts self p.2 (h p hp)]
  simp

theorem rawGreen_zero (self : TrafficSignalOptimizer) (eff : ℤ) (y : ℚ) :
    self.rawGreen 0 eff y = (eff : ℚ) / 4 := by
  simp [rawGreen]

theorem pyInt_eq (q : ℚ) (n : ℤ) (h0 : 0 ≤ q) (h1 : (n : ℚ) ≤ q)
    (h2 : q < (n : ℚ) + 1) : pyInt q = n := by
  simp only [pyInt]
  rw [if_neg (not_lt.mpr h0), Int.floor_eq_iff.mpr ⟨h1, h2⟩]

theorem pyRound_eq_low (q : ℚ) (n : ℤ) (h1 : (n : ℚ) ≤ q)
    (h2 : q < (n : ℚ) + 1/2) : pyRound q = n := by
  have hf : ⌊q⌋ = n := Int.floor_eq_iff.mpr ⟨h1, by linarith⟩
  simp only [pyRound, hf]
  rw [if_pos (show q - (n : ℚ) < 1/2 from by linarith)]

theorem pyRound_eq_high (q : ℚ) (n : ℤ) (h1 : (n : ℚ) - 1/2 < q)
    (h2 : q < (n : ℚ)) : pyRound q = n := by
  have hf : ⌊q⌋ = n - 1 := by
    rw [Int.floor_eq_iff]
    constructor
    · push_cast
      linarith
    · push_cast
      linarith
  simp only [pyRound, hf]
  rw [if_neg (show ¬(q - ((n - 1 : ℤ) : ℚ) < 1/2) from by push_cast; linarith),
    if_pos (show (1:ℚ)/2 < q - ((n - 1 : ℤ) : ℚ) from by push_cast; linarith)]
  omega

theorem weightOf_new_car : TrafficSignalOptimizer.new.weightOf "car" = 1 := rfl

theorem density_single (self : TrafficSignalOptimizer) (t : String) (c : ℤ) :
    self.calculate_traffic_density [(t, c)] = (c : ℚ) * self.weightOf t := by
  rw [density_eq_sum]
  simp

theorem cycleTimeOf_new_nonpos (Y : ℚ) (h1 : Y ≤ 0) :
    TrafficSignalOptimizer.new.cycleTimeOf Y = 60 := by
  simp only [cycleTimeOf, optimalCycle]
  rw [min_eq_left (show Y ≤ (19:ℚ)/20 from by linarith),
    if_neg (show ¬((0:ℚ) < Y) from by linarith)]
  rw [show ((TrafficSignalOptimizer.new.min_cycle_time : ℤ) : ℚ) = 60 from by
    norm_num [TrafficSignalOptimizer.new]]
  rw [pyInt_eq 60 60 (by norm_num) (by norm_num) (by norm_num)]
  decide

theorem cycleTimeOf_new_clamped (Y : ℚ) (h1 : 19/20 ≤ Y) :
    TrafficSignalOptimizer.new.cycleTimeOf Y = 150 := by
  simp only [cycleTimeOf, optimalCycle]
  rw [min_eq_right h1, if_pos (show (0:ℚ) < 19/20 from by norm_num)]
  rw [show ((3:ℚ)/2 * ((TrafficSignalOptimizer.new.totalLostTime : ℤ) : ℚ) + 5) / (1 - 19/20)
      = 580 from by norm_num [totalLostTime, TrafficSignalOptimizer.new]]
  rw [pyInt_eq 580 580 (by norm_num) (by norm_num) (by norm_num)]
  decide

theorem cycleTimeOf_new_uneven :
    TrafficSignalOptimizer.new.cycleTimeOf (13/15) = 150 := by
  simp only [cycleTimeOf, optimalCycle]
  rw [min_eq_left (show (13:ℚ)/15 ≤ 19/20 from by norm_num),
    if_pos (show (0:ℚ) < 13/15 from by norm_num)]
  rw [show ((3:ℚ)/2 * ((TrafficSignalOptimizer.new.totalLostTime : ℤ) : ℚ) + 5) / (1 - 13/15)
      = 435/2 from by norm_num [totalLostTime, TrafficSignalOptimizer.new]]
  rw [pyInt_eq (435/2) 217 (by norm_num) (by norm_num) (by norm_num)]
  decide

theorem cycleTimeOf_new_half :
    TrafficSignalOptimizer.new.cycleTimeOf (1/2) = 60 := by
  simp only [cycleTimeOf, optimalCycle]
  rw [min_eq_left (show (1:ℚ)/2 ≤ 19/20 from by norm_num),
    if_pos (show (0:ℚ) < 1/2 from by norm_num)]
  rw [show ((3:ℚ)/2 * ((TrafficSignalOptimizer.new.totalLostTime : ℤ) : ℚ) + 5) / (1 - 1/2)
      = 58 from by norm_num [totalLostTime, TrafficSignalOptimizer.new]]
  rw [pyInt_eq 58 58 (by norm_num) (by norm_num) (by norm_num)]
  decide

theorem laneTiming_fields (self : TrafficSignalOptimizer) (Y : ℚ) (cycle : ℤ)
    (counts : List (String × ℤ)) (d : ℚ) (g f : ℤ)
    (hd : self.calculate_traffic_density counts = d)
    (hg : pyRound (self.rawGreen Y (cycle - self.totalLostTime)
      (d / self.saturation_flow)) = g)
    (hf : pyRound (d / self.saturation_flow * 1000) = f) :
    self.laneTiming Y cycle counts
      = ⟨max self.min_green_time g,
         cycle - max self.min_green_time g - self.lost_time_per_phase,
         self.lost_time_per_phase, d, (f : ℚ) / 1000⟩ := by
  simp only [laneTiming, laneY, pyRound3, hd, hg, hf]

theorem laneTiming_zero_car0 :
    TrafficSignalOptimizer.new.laneTiming 0 60 [("car", 0)] = ⟨11, 45, 4, 0, 0⟩ := by
  have hd : TrafficSignalOptimizer.new.calculate_traffic_density [("car", 0)] = 0 := by
    rw [density_single, weightOf_new_car]
    norm_num
  have harg : TrafficSignalOptimizer.new.rawGreen 0
      (60 - TrafficSignalOptimizer.new.totalLostTime)
      ((0:ℚ) / TrafficSignalOptimizer.new.saturation_flow) = 11 := by
    rw [rawGreen_zero]
    norm_num [totalLostTime, TrafficSignalOptimizer.new]
  have hfl : (0:ℚ) / TrafficSignalOptimizer.new.saturation_flow * 1000 = 0 := by
    norm_num
  rw [laneTiming_fields TrafficSignalOptimizer.new 0 60 [("car", 0)] 0 11 0 hd
    (by rw [harg]; exact pyRound_eq_low 11 11 (by norm_num) (by norm_num))
    (by rw [hfl]; exact pyRound_eq_low 0 0 (by norm_num) (by norm_num))]
  norm_num [TrafficSignalOptimizer.new, max_def, LaneTiming.mk.injEq]

theorem laneTiming_negY_carNeg5 :
    TrafficSignalOptimizer.new.laneTiming (-1/6) 60 [("car", -5)]
      = ⟨11, 45, 4, -5, -167/1000⟩ := by
  have hd : TrafficSignalOptimizer.new.calculate_traffic_density [("car", -5)] = -5 := by
    rw [density_single, weightOf_new_car]
    norm_num
  have harg : TrafficSignalOptimizer.new.rawGreen (-1/6)
      (60 - TrafficSignalOptimizer.new.totalLostTime)
      ((-5:ℚ) / TrafficSignalOptimizer.new.saturation_flow) = 11 := by
    simp only [rawGreen]
    rw [if_neg (show ¬((0:ℚ) < -1/6) from by norm_num)]
    norm_num [totalLostTime, TrafficSignalOptimizer.new]
  have hfl : (-5:ℚ) / TrafficSignalOptimizer.new.saturation_flow * 1000 = -500/3 := by
    norm_num [TrafficSignalOptimizer.new]
  rw [laneTiming_fields TrafficSignalOptimizer.new (-1/6) 60 [("car", -5)] (-5) 11 (-167) hd
    (by rw [harg]; exact pyRound_eq_low 11 11 (by norm_num) (by norm_num))
    (by rw [hfl]; exact pyRound_eq_low (-500/3) (-167) (by norm_num) (by norm_num))]
  norm_num [TrafficSignalOptimizer.new, max_def, LaneTiming.mk.injEq]

theorem laneTiming_uneven_car2 :
    TrafficSignalOptimizer.new.laneTiming (13/15) 150 [("car", 2)]
      = ⟨10, 136, 4, 2, 67/1000⟩ := by
  have hd : TrafficSignalOptimizer.new.calculate_traffic_density [("car", 2)] = 2 := by
    rw [density_single, weightOf_new_car]
    norm_num
  have harg : TrafficSignalOptimizer.new.rawGreen (13/15)
      (150 - TrafficSignalOptimizer.new.totalLostTime)
      ((2:ℚ) / TrafficSignalOptimizer.new.saturation_flow) = 134/13 := by
    simp only [rawGreen]
    rw [if_pos (show (0:ℚ) < 13/15 from by norm_num)]
    norm_num [totalLostTime, TrafficSignalOptimizer.new]
  have hfl : (2:ℚ) / TrafficSignalOptimizer.new.saturation_flow * 1000 = 200/3 := by
    norm_num [TrafficSignalOptimizer.new]
  rw [laneTiming_fields TrafficSignalOptimizer.new (13/15) 150 [("car", 2)] 2 10 67 hd
    (by rw [harg]; exact pyRound_eq_low (134/13) 10 (by norm_num) (by norm_num))
    (by rw [hfl]; exact pyRound_eq_high (200/3) 67 (by norm_num) (by norm_num))]
  norm_num [TrafficSignalOptimizer.new, max_def, LaneTiming.mk.injEq]

theorem laneTiming_uneven_car20 :
    TrafficSignalOptimizer.new.laneTiming (13/15) 150 [("car", 20)]
      = ⟨103, 43, 4, 20, 667/1000⟩ := by
  have hd : TrafficSignalOptimizer.new.calculate_traffic_density [("car", 20)] = 20 := by
    rw [density_single, weightOf_new_car]
    norm_num
  have harg : TrafficSignalOptimizer.new.rawGreen (13/15)
      (150 - TrafficSignalOptimizer.new.totalLostTime)
      ((20:ℚ) / TrafficSignalOptimizer.new.saturation_flow) = 1340/13 := by
    simp only [rawGreen]
    rw [if_pos (show (0:ℚ) < 13/15 from by norm_num)]
    norm_num [totalLostTime, TrafficSignalOptimizer.new]
  have hfl : (20:ℚ) / TrafficSignalOptimizer.new.saturation_flow * 1000 = 2000/3 := by
    norm_num [TrafficSignalOptimizer.new]
  rw [laneTiming_fields TrafficSignalOptimizer.new (13/15) 150 [("car", 20)] 20 103 667 hd
    (by rw [harg]; exact pyRound_eq_low (1340/13) 103 (by norm_num) (by norm_num))
    (by rw [hfl]; exact pyRound_eq_high (2000/3) 667 (by norm_num) (by norm_num))]
  norm_num [TrafficSignalOptimizer.new, max_def, LaneTiming.mk.injEq]

theorem laneTiming_mixed_car30 :
    TrafficSignalOptimizer.new.laneTiming (1/2) 60 [("car", 30)]
      = ⟨88, -32, 4, 30, 1⟩ := by
  have hd : TrafficSignalOptimizer.new.calculate_traffic_density [("car", 30)] = 30 := by
    rw [density_single, weightOf_new_car]
    norm_num
  have harg : TrafficSignalOptimizer.new.rawGreen (1/2)
      (60 - TrafficSignalOptimizer.new.totalLostTime)
      ((30:ℚ) / TrafficSignalOptimizer.new.saturation_flow) = 88 := by
    simp only [rawGreen]
    rw [if_pos (show (0:ℚ) < 1/2 from by norm_num)]
    norm_num [totalLostTime, TrafficSignalOptimizer.new]
  have hfl : (30:ℚ) / TrafficSignalOptimizer.new.saturation_flow * 1000 = 1000 := by
    norm_num [TrafficSignalOptimizer.new]
  rw [laneTiming_fields TrafficSignalOptimizer.new (1/2) 60 [("car", 30)] 30 88 1000 hd
    (by rw [harg]; exact pyRound_eq_low 88 88 (by norm_num) (by norm_num))
    (by rw [hfl]; exact pyRound_eq_low 1000 1000 (by norm_num) (by norm_num))]
  norm_num [TrafficSignalOptimizer.new, max_def, LaneTiming.mk.injEq]

theorem laneTiming_mixed_carNeg15 :
    TrafficSignalOptimizer.new.laneTiming (1/2) 60 [("car", -15)]
      = ⟨10, 46, 4, -15, -1/2⟩ := by
  have hd : TrafficSignalOptimizer.new.calculate_traffic_density [("car", -15)] = -15 := by
    rw [density_single, weightOf_new_car]
    norm_num
  have harg : TrafficSignalOptimizer.new.rawGreen (1/2)
      (60 - TrafficSignalOptimizer.new.totalLostTime)
      ((-15:ℚ) / TrafficSignalOptimizer.new.saturation_flow) = -44 := by
    simp only [rawGreen]
    rw [if_pos (show (0:ℚ) < 1/2 from by norm_num)]
    norm_num [totalLostTime, TrafficSignalOptimizer.new]
  have hfl : (-15:ℚ) / TrafficSignalOptimizer.new.saturation_flow * 1000 = -500 := by
    norm_num [TrafficSignalOptimizer.new]
  rw [laneTiming_fields TrafficSignalOptimizer.new (1/2) 60 [("car", -15)] (-15) (-44) (-500) hd
    (by rw [harg]; exact pyRound_eq_low (-44) (-44) (by norm_num) (by norm_num))
    (by rw [hfl]; exact pyRound_eq_low (-500) (-500) (by norm_num) (by norm_num))]
  norm_num [TrafficSignalOptimizer.new, max_def, LaneTiming.mk.injEq]

theorem satsum_nil :
    TrafficSignalOptimizer.new.saturationSumOf [] = 0 := rfl

theorem satsum_oneZero :
    TrafficSignalOptimizer.new.saturationSumOf [("N", [("car", 0)])] = 0 := by
  simp only [saturationSumOf, List.map_cons, List.map_nil, laneY, density_single,
    weightOf_new_car, List.sum_cons, List.sum_nil]
  norm_num

theorem satsum_twoZero :
    TrafficSignalOptimizer.new.saturationSumOf
      [("A", [("car", 0)]), ("B", [("car", 0)])] = 0 := by
  simp only [saturationSumOf, List.map_cons, List.map_nil, laneY, density_single,
    weightOf_new_car, List.sum_cons, List.sum_nil]
  norm_num

theorem satsum_negN :
    TrafficSignalOptimizer.new.saturationSumOf [("N", [("car", -5)])] = -1/6 := by
  simp only [saturationSumOf, List.map_cons, List.map_nil, laneY, density_single,
    weightOf_new_car, List.sum_cons, List.sum_nil]
  norm_num [TrafficSignalOptimizer.new]

theorem satsum_uneven :
    TrafficSignalOptimizer.new.saturationSumOf
      [("N", [("car", 2)]), ("S", [("car", 2)]), ("E", [("car", 2)]), ("W", [("car", 20)])]
      = 13/15 := by
  simp only [saturationSumOf, List.map_cons, List.map_nil, laneY, density_single,
    weightOf_new_car, List.sum_cons, List.sum_nil]
  norm_num [TrafficSignalOptimizer.new]

theorem satsum_mixed :
    TrafficSignalOptimizer.new.saturationSumOf
      [("A", [("car", 30)]), ("B", [("car", -15)])] = 1/2 := by
  simp only [saturationSumOf, List.map_cons, List.map_nil, laneY, density_single,
    weightOf_new_car, List.sum_cons, List.sum_nil]
  norm_num [TrafficSignalOptimizer.new]

theorem satsum_saturated :
    TrafficSignalOptimizer.new.saturationSumOf [("N", [("car", 30)])] = 1 := by
  simp only [saturationSumOf, List.map_cons, List.map_nil, laneY, density_single,
    weightOf_new_car, List.sum_cons, List.sum_nil]
  norm_num [TrafficSignalOptimizer.new]

theorem eval_empty :
    TrafficSignalOptimizer.new.optimize_signals ([] : List (String × List (String × ℤ)))
      = ⟨60, [], 0, 16⟩ := by
  simp only [optimize_signals, satsum_nil, cycleTimeOf_new_nonpos 0 le_rfl,
    List.map_nil, List.sum_nil]
  norm_num [totalLostTime, TrafficSignalOptimizer.new, OptimizationResult.mk.injEq]

theorem eval_reqOneZero :
    TrafficSignalOptimizer.new.optimize_signals reqOneZero
      = ⟨60, [("N", ⟨11, 45, 4, 0, 0⟩)], 0, 27⟩ := by
  simp only [optimize_signals, reqOneZero, satsum_oneZero,
    cycleTimeOf_new_nonpos 0 le_rfl, List.map_cons, List.map_nil, laneTiming_zero_car0,
    List.sum_cons, List.sum_nil]
  norm_num [totalLostTime, TrafficSignalOptimizer.new, OptimizationResult.mk.injEq]

theorem eval_reqTwoZero :
    TrafficSignalOptimizer.new.optimize_signals reqTwoZero
      = ⟨60, [("A", ⟨11, 45, 4, 0, 0⟩), ("B", ⟨11, 45, 4, 0, 0⟩)], 0, 38⟩ := by
  simp only [optimize_signals, reqTwoZero, satsum_twoZero,
    cycleTimeOf_new_nonpos 0 le_rfl, List.map_cons, List.map_nil, laneTiming_zero_car0,
    List.sum_cons, List.sum_nil]
  norm_num [totalLostTime, TrafficSignalOptimizer.new, OptimizationResult.mk.injEq]

theorem eval_reqNegN :
    TrafficSignalOptimizer.new.optimize_signals reqNegN
      = ⟨60, [("N", ⟨11, 45, 4, -5, -167/1000⟩)], -1/6, 27⟩ := by
  simp only [optimize_signals, reqNegN, satsum_negN,
    cycleTimeOf_new_nonpos (-1/6) (by norm_num), List.map_cons, List.map_nil,
    laneTiming_negY_carNeg5, List.sum_cons, List.sum_nil]
  norm_num [totalLostTime, TrafficSignalOptimizer.new, OptimizationResult.mk.injEq]

theorem eval_reqUneven :
    TrafficSignalOptimizer.new.optimize_signals reqUneven
      = ⟨150, [("N", ⟨10, 136, 4, 2, 67/1000⟩), ("S", ⟨10, 136, 4, 2, 67/1000⟩),
          ("E", ⟨10, 136, 4, 2, 67/1000⟩), ("W", ⟨103, 43, 4, 20, 667/1000⟩)],
          13/15, 149⟩ := by
  simp only [optimize_signals, reqUneven, satsum_uneven, cycleTimeOf_new_uneven,
    List.map_cons, List.map_nil, laneTiming_uneven_car2, laneTiming_uneven_car20,
    List.sum_cons, List.sum_nil]
  norm_num [totalLostTime, TrafficSignalOptimizer.new, OptimizationResult.mk.injEq]

theorem eval_reqMixedNeg :
    TrafficSignalOptimizer.new.optimize_signals reqMixedNeg
      = ⟨60, [("A", ⟨88, -32, 4, 30, 1⟩), ("B", ⟨10, 46, 4, -15, -1/2⟩)], 1/2, 114⟩ := by
  simp only [optimize_signals, reqMixedNeg, satsum_mixed, cycleTimeOf_new_half,
    List.map_cons, List.map_nil, laneTiming_mixed_car30, laneTiming_mixed_carNeg15,
    List.sum_cons, List.sum_nil]
  norm_num [totalLostTime, TrafficSignalOptimizer.new, OptimizationResult.mk.injEq]

/-- C1, counterexample: on the four-lane request with car counts
2, 2, 2, 20, the nominal cycle time is 150 but the reconciled actual
cycle time is only 149 (round-to-nearest green times lose fractions),
so `actualCycleTime ≥ cycleTime` fails. -/
theorem actual_cycle_time_lt_cycle_time_cex :
    (TrafficSignalOptimizer.new.optimize_signals reqUneven).cycle_time = 150
      ∧ (TrafficSignalOptimizer.new.optimize_signals reqUneven).actual_cycle_time = 149
      ∧ ¬ ((TrafficSignalOptimizer.new.optimize_signals reqUneven).cycle_time
            ≤ (TrafficSignalOptimizer.new.optimize_signals reqUneven).actual_cycle_time) := by
  rw [eval_reqUneven]
  refine ⟨rfl, rfl, by decide⟩

/-- C1, amended: for every optimizer state and every request, the
returned actual cycle time equals the sum over all lanes of the
floor-enforced green time plus the total lost time (the bound
`actualCycleTime ≥ cycleTime` does not hold in general). -/
theorem actual_cycle_time_eq_green_sum_add_lost (self : TrafficSignalOptimizer)
    (lane_counts : List (String × List (String × ℤ))) :
    (self.optimize_signals lane_counts).actual_cycle_time
      = (((self.optimize_signals lane_counts).lanes).map fun p => p.2.green_time).sum
          + self.totalLostTime := rfl

/-- C2, counterexample: on a one-lane request the allocated green sum is
11 and the actual cycle time is 27 = 11 + 16, so the lost time used is
16 = 4·4, not 4 = lostTimePerPhase × numberOfLanes. -/
theorem lost_time_per_lane_cex :
    ((TrafficSignalOptimizer.new.optimize_signals reqOneZero).lanes.map
        fun p => p.2.green_time).sum = 11
      ∧ (TrafficSignalOptimizer.new.optimize_signals reqOneZero).actual_cycle_time = 27
      ∧ (TrafficSignalOptimizer.new.optimize_signals reqOneZero).actual_cycle_time
          ≠ ((TrafficSignalOptimizer.new.optimize_signals reqOneZero).lanes.map
              fun p => p.2.green_time).sum
            + TrafficSignalOptimizer.new.lost_time_per_phase * (reqOneZero.length : ℤ) := by
  rw [eval_reqOneZero]
  refine ⟨by decide, by decide, by decide⟩

/-- C2, amended: the total lost time used by the solver is always
`lostTimePerPhase * 4` — the phase count is the hard-coded literal 4,
independent of how many lanes the request contains. -/
theorem total_lost_time_four_phases (self : TrafficSignalOptimizer)
    (lane_counts : List (String × List (String × ℤ))) :
    self.totalLostTime = self.lost_time_per_phase * 4
      ∧ (self.optimize_signals lane_counts).actual_cycle_time
        = (((self.optimize_signals lane_counts).lanes).map fun p => p.2.green_time).sum
            + self.lost_time_per_phase * 4 :=
  ⟨rfl, rfl⟩

/-- C3: whenever the saturation sum Y of the request is at least 1, the
returned cycle time equals the configured maximum cycle time (the cycle
is computed from the clamped value min(Y, 0.95)), and the returned
saturation degree is the unclamped Y. -/
theorem oversaturated_cycle_eq_max (lane_counts : List (String × List (String × ℤ)))
    (h : 1 ≤ TrafficSignalOptimizer.new.saturationSumOf lane_counts) :
    (TrafficSignalOptimizer.new.optimize_signals lane_counts).cycle_time
        = TrafficSignalOptimizer.new.max_cycle_time
      ∧ (TrafficSignalOptimizer.new.optimize_signals lane_counts).saturation_degree
        = TrafficSignalOptimizer.new.saturationSumOf lane_counts := by
  constructor
  · show TrafficSignalOptimizer.new.cycleTimeOf
        (TrafficSignalOptimizer.new.saturationSumOf lane_counts)
      = TrafficSignalOptimizer.new.max_cycle_time
    rw [cycleTimeOf_new_clamped _ (le_trans (by norm_num) h)]
    rfl
  · rfl

/-- Witness for C3: one lane with 30 cars has Y = 1 and gets cycle time
150 = maxCycleTime. -/
theorem oversaturated_cycle_eq_max_witness :
    1 ≤ TrafficSignalOptimizer.new.saturationSumOf reqSaturated
      ∧ (TrafficSignalOptimizer.new.optimize_signals reqSaturated).cycle_time
        = TrafficSignalOptimizer.new.max_cycle_time :=
  ⟨satsum_saturated.ge, (oversaturated_cycle_eq_max reqSaturated satsum_saturated.ge).1⟩

/-- C4, counterexample: the empty request and a request with a negative
count are not rejected — the optimizer runs the density and cycle
computations and returns a timing plan (the negative count even shows
up as a negative saturation degree). -/
theorem invalid_input_not_rejected_cex :
    (TrafficSignalOptimizer.new.optimize_signals []).cycle_time = 60
      ∧ (TrafficSignalOptimizer.new.optimize_signals []).actual_cycle_time = 16
      ∧ (TrafficSignalOptimizer.new.optimize_signals reqNegN).saturation_degree = -1/6
      ∧ ((TrafficSignalOptimizer.new.optimize_signals reqNegN).lanes.map
          fun p => p.2.green_time) = [11] := by
  rw [eval_empty, eval_reqNegN]
  refine ⟨rfl, rfl, rfl, by decide⟩

/-- C4, amended: requests with negative counts or an empty lane mapping
are not rejected; `optimize_signals` performs no validation and silently
coerces every request into a timing plan with one entry per input lane.
The empty request yields the minimum-cycle plan with no lanes, and a
negative count flows unchanged through density into the plan. -/
theorem invalid_input_coerced :
    (∀ (self : TrafficSignalOptimizer)
        (lane_counts : List (String × List (String × ℤ))),
        ((self.optimize_signals lane_counts).lanes).length = lane_counts.length)
      ∧ TrafficSignalOptimizer.new.optimize_signals []
        = { cycle_time := 60, lanes := [], saturation_degree := 0,
            actual_cycle_time := 16 }
      ∧ TrafficSignalOptimizer.new.optimize_signals reqNegN
        = { cycle_time := 60,
            lanes := [("N",
              { green_time := 11, red_time := 45, yellow_time := 4,
                density_score := -5, flow_ratio := -167/1000 })],
            saturation_degree := -1/6,
            actual_cycle_time := 27 } := by
  refine ⟨fun self lane_counts => ?_, eval_empty, eval_reqNegN⟩
  simp [optimize_signals]

/-- C5: for every optimizer state and every request, every lane of the
result is assigned a green time of at least the configured minimum
green time. -/
theorem green_time_ge_min (self : TrafficSignalOptimizer)
    (lane_counts : List (String × List (String × ℤ)))
    (p : String × LaneTiming)
    (hp : p ∈ (self.optimize_signals lane_counts).lanes) :
    self.min_green_time ≤ p.2.green_time := by
  simp only [optimize_signals, List.mem_map] at hp
  obtain ⟨q, _, rfl⟩ := hp
  exact le_max_left _ _

/-- Witness for C5 at the one-lane zero-count request, whose single lane
gets green time 11 ≥ 10. -/
theorem green_time_ge_min_witness :
    TrafficSignalOptimizer.new.min_green_time
      ≤ (("N", (⟨11, 45, 4, 0, 0⟩ : LaneTiming)) : String × LaneTiming).2.green_time :=
  green_time_ge_min TrafficSignalOptimizer.new reqOneZero
    ("N", (⟨11, 45, 4, 0, 0⟩ : LaneTiming))
    (by rw [eval_reqOneZero]; exact List.Mem.head _)

/-- C6: for every optimizer state and every counts mapping, the density
is the sum over the mapping's items of count times category weight,
categories absent from the weight table get default weight 1, doubling
every count doubles the density, and the empty mapping has density 0. -/
theorem density_sum_linear_empty_default (self : TrafficSignalOptimizer)
    (counts : List (String × ℤ)) :
    self.calculate_traffic_density counts
        = (counts.map fun p => (p.2 : ℚ) * self.weightOf p.1).sum
      ∧ self.calculate_traffic_density (counts.map fun p => (p.1, 2 * p.2))
        = 2 * self.calculate_traffic_density counts
      ∧ self.calculate_traffic_density [] = 0
      ∧ ∀ t : String, self.weights.lookup t = none → self.weightOf t = 1 := by
  refine ⟨self.density_eq_sum counts, ?_, rfl, ?_⟩
  · rw [self.density_eq_sum, self.density_eq_sum, List.map_map]
    induction counts with
    | nil => simp
    | cons q t ih =>
      simp only [List.map_cons, List.sum_cons, Function.comp] at ih ⊢
      rw [ih]
      push_cast
      ring
  · intro t ht
    simp [weightOf, ht]

/-- Witness for C6: the category "bicycle" is not in the constructed
weight table and receives the default weight 1. -/
theorem density_sum_linear_empty_default_witness :
    TrafficSignalOptimizer.new.weights.lookup "bicycle" = none
      ∧ TrafficSignalOptimizer.new.weightOf "bicycle" = 1 :=
  ⟨by decide,
   (density_sum_linear_empty_default TrafficSignalOptimizer.new []).2.2.2
     "bicycle" (by decide)⟩

/-- C7: a call of `optimize_signals` leaves the optimizer state exactly
as it found it, and a second call on the resulting state with the same
request returns the same result — the optimization is a deterministic
pure function of the state and the input. -/
theorem optimize_signals_deterministic_stateless (self : TrafficSignalOptimizer)
    (lane_counts : List (String × List (String × ℤ))) :
    ((self.optimize_signals_call lane_counts).2.optimize_signals_call lane_counts).1
        = (self.optimize_signals_call lane_counts).1
      ∧ ((self.optimize_signals_call lane_counts).2.optimize_signals_call lane_counts).2
        = self :=
  ⟨rfl, rfl⟩

/-- C8, counterexample: on a two-lane all-zero request each lane gets
green time 11 (effectiveGreen/4 with the hard-coded 4), not the equal
share effectiveGreen/2 = 22 over the two submitted lanes. -/
theorem zero_demand_equal_share_cex :
    ((TrafficSignalOptimizer.new.optimize_signals reqTwoZero).lanes.map
        fun p => p.2.green_time) = [11, 11]
      ∧ (TrafficSignalOptimizer.new.optimize_signals reqTwoZero).cycle_time
        = TrafficSignalOptimizer.new.min_cycle_time
      ∧ max TrafficSignalOptimizer.new.min_green_time
          (pyRound (((TrafficSignalOptimizer.new.min_cycle_time
              - TrafficSignalOptimizer.new.totalLostTime : ℤ) : ℚ) / 2)) = 22
      ∧ (11 : ℤ) ≠ 22 := by
  refine ⟨?_, ?_, ?_, by decide⟩
  · rw [eval_reqTwoZero]
    decide
  · rw [eval_reqTwoZero]
    rfl
  · rw [show (((TrafficSignalOptimizer.new.min_cycle_time
        - TrafficSignalOptimizer.new.totalLostTime : ℤ) : ℚ) / 2) = 22 from by
      norm_num [totalLostTime, TrafficSignalOptimizer.new]]
    rw [pyRound_eq_low 22 22 (by norm_num) (by norm_num)]
    decide

/-- C8, amended: if all lane counts are zero then the saturation sum is
0, the cycle time is the minimum cycle time, and every lane receives
`max(minGreenTime, round(effectiveGreen / 4))` — an equal share computed
with the hard-coded divisor 4, not the number of submitted lanes. -/
theorem zero_demand_plan (lane_counts : List (String × List (String × ℤ)))
    (h : ∀ p ∈ lane_counts, ∀ c ∈ p.2, c.2 = 0) :
    (TrafficSignalOptimizer.new.optimize_signals lane_counts).saturation_degree = 0
      ∧ (TrafficSignalOptimizer.new.optimize_signals lane_counts).cycle_time
        = TrafficSignalOptimizer.new.min_cycle_time
      ∧ ∀ p ∈ (TrafficSignalOptimizer.new.optimize_signals lane_counts).lanes,
          p.2.green_time
            = max TrafficSignalOptimizer.new.min_green_time
                (pyRound (((TrafficSignalOptimizer.new.min_cycle_time
                    - TrafficSignalOptimizer.new.totalLostTime : ℤ) : ℚ) / 4)) := by
  have hY := TrafficSignalOptimizer.new.saturation_sum_of_zero lane_counts h
  refine ⟨hY, ?_, ?_⟩
  · show TrafficSignalOptimizer.new.cycleTimeOf
        (TrafficSignalOptimizer.new.saturationSumOf lane_counts)
      = TrafficSignalOptimizer.new.min_cycle_time
    rw [hY, cycleTimeOf_new_nonpos 0 le_rfl]
    rfl
  · intro p hp
    simp only [optimize_signals, List.mem_map] at hp
    obtain ⟨q, hq, rfl⟩ := hp
    simp only [laneTiming]
    rw [hY, cycleTimeOf_new_nonpos 0 le_rfl, rawGreen_zero]
    norm_num [totalLostTime, TrafficSignalOptimizer.new]

/-- Witness for C8 at a one-lane all-zero request. -/
theorem zero_demand_plan_witness :
    (TrafficSignalOptimizer.new.optimize_signals reqOneZeroA).saturation_degree = 0
      ∧ (TrafficSignalOptimizer.new.optimize_signals reqOneZeroA).cycle_time
        = TrafficSignalOptimizer.new.min_cycle_time :=
  ⟨(zero_demand_plan reqOneZeroA (by decide)).1,
   (zero_demand_plan reqOneZeroA (by decide)).2.1⟩

/-- C9: in every result every lane's red time equals the nominal cycle
time minus that lane's green time minus its yellow time, the yellow time
is the constant lost time per phase, and the red time is surfaced
unclamped — there is a request on which it is negative. -/
theorem red_time_nominal_unclamped :
    (∀ (self : TrafficSignalOptimizer)
        (lane_counts : List (String × List (String × ℤ)))
        (p : String × LaneTiming),
        p ∈ (self.optimize_signals lane_counts).lanes →
          p.2.red_time
              = (self.optimize_signals lane_counts).cycle_time
                  - p.2.green_time - p.2.yellow_time
            ∧ p.2.yellow_time = self.lost_time_per_phase)
      ∧ ∃ p : String × LaneTiming,
          p ∈ (TrafficSignalOptimizer.new.optimize_signals reqMixedNeg).lanes
            ∧ p.2.red_time < 0 := by
  constructor
  · intro self lane_counts p hp
    simp only [optimize_signals, List.mem_map] at hp
    obtain ⟨q, _, rfl⟩ := hp
    exact ⟨rfl, rfl⟩
  · exact ⟨("A", (⟨88, -32, 4, 30, 1⟩ : LaneTiming)),
      by rw [eval_reqMixedNeg]; exact List.Mem.head _, by decide⟩

/-- Witness for C9 at the one-lane zero-count request: red 45 equals
cycle 60 minus green 11 minus yellow 4. -/
theorem red_time_nominal_unclamped_witness :
    (("N", (⟨11, 45, 4, 0, 0⟩ : LaneTiming)) : String × LaneTiming).2.red_time
        = (TrafficSignalOptimizer.new.optimize_signals reqOneZero).cycle_time
            - (("N", (⟨11, 45, 4, 0, 0⟩ : LaneTiming)) : String × LaneTiming).2.green_time
            - (("N", (⟨11, 45, 4, 0, 0⟩ : LaneTiming)) : String × LaneTiming).2.yellow_time
      ∧ (("N", (⟨11, 45, 4, 0, 0⟩ : LaneTiming)) : String × LaneTiming).2.yellow_time
        = TrafficSignalOptimizer.new.lost_time_per_phase :=
  red_time_nominal_unclamped.1 TrafficSignalOptimizer.new reqOneZero
    ("N", (⟨11, 45, 4, 0, 0⟩ : LaneTiming))
    (by rw [eval_reqOneZero]; exact List.Mem.head _)

/-- C10: for every optimizer state and every request, the lanes of the
result carry exactly the lane identifiers of the input, in order — no
lane is dropped and none is added. -/
theorem lanes_keys_eq (self : TrafficSignalOptimizer)
    (lane_counts : List (String × List (String × ℤ))) :
    ((self.optimize_signals lane_counts).lanes).map Prod.fst
      = lane_counts.map Prod.fst := by
  simp [optimize_signals]

end TrafficSignalOptimizer

end TrafficOpt
